import Mathlib

/-!
Verification of the Recipe Rabbit sync controllers (favorites and grocery
list).  The two React contexts (`src/context/GroceryContext.tsx` and the
favorites context in the sources) are shallowly embedded: JavaScript strings
are modelled as lists of characters, `String.prototype.toLowerCase` /
`String.prototype.trim` as the corresponding character-list operations,
Dates as integer epoch values (`none` marking an Invalid Date), and the
asynchronous Firestore / AsyncStorage calls as explicit outcome parameters
(each call either succeeds or throws).  Every state update performed by a
handler is recorded in an explicit output record.
-/

namespace RecipeRabbit

/-- JavaScript strings, modelled as lists of characters. -/
abbrev JStr := List Char

/-- Model of `String.prototype.toLowerCase` (character-wise lowering of the
basic latin letters, which is what `Char.toLower` implements). -/
def jsToLower (s : JStr) : JStr := s.map Char.toLower

/-- Model of `String.prototype.trim`: remove leading whitespace, then
remove trailing whitespace (by reversing, dropping, reversing back). -/
def jsTrim (s : JStr) : JStr :=
  (((s.dropWhile Char.isWhitespace).reverse.dropWhile Char.isWhitespace)).reverse

/-- The grocery-item identity key used throughout the sources:
`x.toLowerCase().trim()`. -/
def normName (s : JStr) : JStr := jsTrim (jsToLower s)

/-- Lowering a valid basic-latin codepoint stays a valid codepoint. -/
theorem char_ofNat_toNat (k : Nat) (h : k < 55296) : (Char.ofNat k).toNat = k := by
  simp [Char.ofNat, Char.ofNatAux, Char.toNat, Nat.isValidChar, isValidChar]
  rw [dif_pos (Or.inl h)]
  simp [UInt32.toNat, BitVec.toNat_ofNatLt]

/-- Lowering maps whitespace to whitespace and non-whitespace to
non-whitespace. -/
theorem isWhitespace_toLower (c : Char) :
    (Char.toLower c).isWhitespace = c.isWhitespace := by
  by_cases h : c.toNat ≥ 65 ∧ c.toNat ≤ 90
  · have hl : Char.toLower c = Char.ofNat (c.toNat + 32) := by
      unfold Char.toLower; simp [h]
    have hv : (Char.ofNat (c.toNat + 32)).toNat = c.toNat + 32 :=
      char_ofNat_toNat _ (by omega)
    have hne : ∀ d : Char, Char.toNat d < 97 → ¬ (Char.ofNat (c.toNat + 32) = d) := by
      intro d hd he
      have hx := congrArg Char.toNat he
      rw [hv] at hx
      omega
    rw [hl]
    have lhs : (Char.ofNat (c.toNat + 32)).isWhitespace = false := by
      simp only [Char.isWhitespace, Bool.or_eq_false_iff, decide_eq_false_iff_not]
      exact ⟨⟨⟨hne ' ' (by decide), hne '\t' (by decide)⟩, hne '\r' (by decide)⟩,
        hne '\n' (by decide)⟩
    have rhs : c.isWhitespace = false := by
      simp only [Char.isWhitespace, Bool.or_eq_false_iff, decide_eq_false_iff_not]
      refine ⟨⟨⟨?_, ?_⟩, ?_⟩, ?_⟩ <;> intro he <;> subst he <;> revert h <;> decide
    rw [lhs, rhs]
  · have hl : Char.toLower c = c := by
      unfold Char.toLower; simp [h]
    rw [hl]

/-- Dropping a whitespace run is idempotent. -/
theorem dropWhile_idem (p : α → Bool) (l : List α) :
    (l.dropWhile p).dropWhile p = l.dropWhile p := by
  cases h : l.dropWhile p with
  | nil => simp
  | cons a t =>
    have ha := List.head?_dropWhile_not p l
    rw [h] at ha
    simp only [List.head?_cons] at ha
    simp [List.dropWhile_cons, ha]

/-- Trimming is idempotent. -/
theorem jsTrim_idem (s : JStr) : jsTrim (jsTrim s) = jsTrim s := by
  unfold jsTrim
  set A := s.dropWhile Char.isWhitespace with hA
  set B := A.reverse.dropWhile Char.isWhitespace with hB
  have step1 : B.reverse.dropWhile Char.isWhitespace = B.reverse := by
    cases hBr : B.reverse with
    | nil => simp
    | cons a u =>
      -- `B` is a suffix of `A.reverse`, so `a` is the head of `A`.
      obtain ⟨t, ht⟩ := List.dropWhile_suffix (l := A.reverse) Char.isWhitespace
      rw [← hB] at ht
      have hAeq : A = B.reverse ++ t.reverse := by
        have := congrArg List.reverse ht
        simpa using this.symm
      have hAcons : A = a :: (u ++ t.reverse) := by rw [hAeq, hBr]; rfl
      have hhead : Char.isWhitespace a = false := by
        have hh := List.head?_dropWhile_not Char.isWhitespace s
        rw [← hA, hAcons] at hh
        simpa only [List.head?_cons] using hh
      simp [List.dropWhile_cons, hhead]
  rw [step1, List.reverse_reverse, hB, dropWhile_idem]

/-- Lowercasing commutes with trimming. -/
theorem jsToLower_jsTrim (s : JStr) : jsToLower (jsTrim s) = jsTrim (jsToLower s) := by
  have hp : Char.isWhitespace ∘ Char.toLower = Char.isWhitespace :=
    funext isWhitespace_toLower
  unfold jsToLower jsTrim
  rw [List.dropWhile_map, hp, ← List.map_reverse, List.dropWhile_map, hp,
    ← List.map_reverse]

/-- Trimming first does not change the normalization key. -/
theorem normName_jsTrim (s : JStr) : normName (jsTrim s) = normName s := by
  unfold normName
  rw [jsToLower_jsTrim, jsTrim_idem]

/-- A grocery item (`GroceryItem` in `src/context/GroceryContext.tsx`).
`addedAt` is an epoch value; ids are locally generated strings. -/
structure GroceryItem where
  id : JStr
  name : JStr
  checked : Bool
  addedAt : Int
deriving DecidableEq

/-- A favorite recipe (`Recipe` in the favorites context). -/
structure Recipe where
  id : Int
  name : JStr
  details : JStr
  image : JStr
deriving DecidableEq

/-- The grocery deduplication key: `item.name.toLowerCase().trim()`. -/
def groceryKey (i : GroceryItem) : JStr := normName i.name

/-- Embedding of `addGroceryItem` from `GroceryContext.tsx`.  The generated fresh id and
the current time are passed in as parameters (`Date.now()` plus random
suffix in the source). -/
def addGroceryItem (freshId : JStr) (now : Int) (ingredient : JStr)
    (items : List GroceryItem) : List GroceryItem :=
  if jsTrim ingredient = [] then items
  else
    match items.find? (fun i => decide (normName i.name = normName ingredient)) with
    | some existingItem =>
      if existingItem.checked then
        items.map (fun i =>
          if i.id = existingItem.id then { i with checked := false } else i)
      else
        items
    | none =>
      items ++ [{ id := freshId, name := jsTrim ingredient, checked := false,
                  addedAt := now }]

/-- Embedding of `removeGroceryItem` from `GroceryContext.tsx`. -/
def removeGroceryItem (id : JStr) (items : List GroceryItem) : List GroceryItem :=
  items.filter (fun i => decide (i.id ≠ id))

/-- Embedding of `removeGroceryItemByName` from `GroceryContext.tsx`. -/
def removeGroceryItemByName (name : JStr) (items : List GroceryItem) :
    List GroceryItem :=
  items.filter (fun i => decide (normName i.name ≠ normName name))

/-- Embedding of `toggleGroceryItem` from `GroceryContext.tsx`. -/
def toggleGroceryItem (id : JStr) (items : List GroceryItem) : List GroceryItem :=
  items.map (fun i => if i.id = id then { i with checked := !i.checked } else i)

/-- Embedding of `clearCheckedItems` from `GroceryContext.tsx`. -/
def clearCheckedItems (items : List GroceryItem) : List GroceryItem :=
  items.filter (fun i => !i.checked)

/-- Embedding of `clearAllItems` from `GroceryContext.tsx`. -/
def clearAllItems (_items : List GroceryItem) : List GroceryItem := []

/-- One UI mutation on the grocery list. -/
inductive GroceryOp where
  | add (freshId : JStr) (now : Int) (ingredient : JStr)
  | remove (id : JStr)
  | removeByName (name : JStr)
  | toggle (id : JStr)
  | clearChecked
  | clearAll
deriving DecidableEq

/-- Apply one grocery mutation. -/
def applyGroceryOp (items : List GroceryItem) : GroceryOp → List GroceryItem
  | .add freshId now ingredient => addGroceryItem freshId now ingredient items
  | .remove id => removeGroceryItem id items
  | .removeByName name => removeGroceryItemByName name items
  | .toggle id => toggleGroceryItem id items
  | .clearChecked => clearCheckedItems items
  | .clearAll => clearAllItems items

/-- Apply a sequence of grocery mutations, oldest first. -/
def applyGroceryOps (items : List GroceryItem) (ops : List GroceryOp) :
    List GroceryItem :=
  ops.foldl applyGroceryOp items

/-- Embedding of `addFavorite` from the favorites context. -/
def addFavorite (recipe : Recipe) (favorites : List Recipe) : List Recipe :=
  if favorites.any (fun fav => decide (fav.id = recipe.id)) then favorites
  else favorites ++ [recipe]

/-- Embedding of `removeFavorite` from the favorites context. -/
def removeFavorite (id : Int) (favorites : List Recipe) : List Recipe :=
  favorites.filter (fun r => decide (r.id ≠ id))

/-- Embedding of `toggleFavorite` from the favorites context. -/
def toggleFavorite (recipe : Recipe) (favorites : List Recipe) : List Recipe :=
  if favorites.any (fun fav => decide (fav.id = recipe.id)) then
    favorites.filter (fun r => decide (r.id ≠ recipe.id))
  else
    favorites ++ [recipe]

/-- Embedding of `isFavorited` from the favorites context. -/
def isFavorited (id : Int) (favorites : List Recipe) : Bool :=
  favorites.any (fun r => decide (r.id = id))

/-- One UI mutation on the favorites list. -/
inductive FavOp where
  | add (recipe : Recipe)
  | remove (id : Int)
  | toggle (recipe : Recipe)
deriving DecidableEq

/-- Apply one favorites mutation. -/
def applyFavOp (favorites : List Recipe) : FavOp → List Recipe
  | .add recipe => addFavorite recipe favorites
  | .remove id => removeFavorite id favorites
  | .toggle recipe => toggleFavorite recipe favorites

/-- Apply a sequence of favorites mutations, oldest first. -/
def applyFavOps (favorites : List Recipe) (ops : List FavOp) : List Recipe :=
  ops.foldl applyFavOp favorites

/-- The manual-sync merge loop shared by `syncGroceryList` and
`syncFavorites`: start from the remote list and push each anonymous item
whose key is not yet present in the accumulated list. -/
def mergeBy {α κ : Type} [DecidableEq κ] (key : α → κ)
    (remote anon : List α) : List α :=
  anon.foldl (fun acc localItem =>
    if acc.any (fun b => decide (key b = key localItem)) then acc
    else acc ++ [localItem]) remote

/-- The grocery manual-sync merge (key: case-insensitive trimmed name). -/
def mergeGrocery (remote anon : List GroceryItem) : List GroceryItem :=
  mergeBy groceryKey remote anon

/-- The favorites manual-sync merge (key: recipe id). -/
def mergeFavorites (remote anon : List Recipe) : List Recipe :=
  mergeBy Recipe.id remote anon

/-- The merge described by the spec's words: remote entries exactly as
stored, followed by the anonymous entries whose key matches no remote
entry, in their original order. -/
def mergeSpecBy {α κ : Type} [DecidableEq κ] (key : α → κ)
    (remote anon : List α) : List α :=
  remote ++ anon.filter (fun a => !remote.any (fun b => decide (key b = key a)))

/-- Possible wire values for `addedAt` reaching `safeToDate`.  A JS `Date`
is an optional epoch value (`none` = `NaN` time value, an Invalid Date);
strings and numbers carry the result of `new Date(x)` (`none` when
unparseable); an object with a `toDate()` method either throws or returns
a Date. -/
inductive DateValue where
  | jsDate (t : Option Int)
  | str (parsed : Option Int)
  | num (parsed : Option Int)
  | nullVal
  | withToDate (result : Except Unit (Option Int))
  | other

/-- Embedding of `safeToDate` from `GroceryContext.tsx`.  `now` is the current time
(`new Date()`), the result is the returned Date (`none` = invalid). -/
def safeToDate (now : Int) (v : DateValue) : Option Int :=
  match v with
  | .jsDate t =>
    match t with
    | none => some now
    | some x => some x
  | .str p =>
    match p with
    | some x => some x
    | none => some now
  | .num p =>
    match p with
    | some x => some x
    | none => some now
  | .nullVal => some now
  | .withToDate r =>
    match r with
    | .ok d => d
    | .error _ => some now
  | .other => some now

/-- Outcomes of the asynchronous calls made by a manual sync: the remote
document read (`getDoc`), the remote write (`setDoc`) and the anonymous
store removal (`AsyncStorage.removeItem`) can each throw. -/
structure SyncEff where
  readFails : Bool
  writeFails : Bool
  clearFails : Bool
deriving DecidableEq

/-- Observable result of a manual sync: the final in-memory list, the list
written to the remote document (if any write happened), whether the
anonymous store was cleared, and which alert was shown. -/
structure SyncOut (α : Type) where
  cache : List α
  remoteWrite : Option (List α)
  anonCleared : Bool
  errorAlert : Bool
  successAlert : Bool
deriving DecidableEq

/-- Embedding of `syncGroceryList` from `GroceryContext.tsx`, for a signed-in user.
`prior` is the in-memory list before the call, `remote` the (normalized)
`groceryList` field of the user document (`[]` when the document or field
is missing), `anon` the anonymous store contents (its loader returns `[]`
on its own errors). -/
def syncGroceryList (prior remote anon : List GroceryItem) (eff : SyncEff) :
    SyncOut GroceryItem :=
  if eff.readFails then
    { cache := prior, remoteWrite := none, anonCleared := false,
      errorAlert := true, successAlert := false }
  else if anon.length = 0 ∧ remote.length > 0 then
    { cache := remote, remoteWrite := none, anonCleared := false,
      errorAlert := false, successAlert := false }
  else
    let merged := mergeGrocery remote anon
    if eff.writeFails then
      { cache := merged, remoteWrite := none, anonCleared := false,
        errorAlert := true, successAlert := false }
    else if anon.length = 0 then
      { cache := merged, remoteWrite := some merged, anonCleared := false,
        errorAlert := false, successAlert := false }
    else if eff.clearFails then
      { cache := merged, remoteWrite := some merged, anonCleared := false,
        errorAlert := true, successAlert := false }
    else
      { cache := merged, remoteWrite := some merged, anonCleared := true,
        errorAlert := false, successAlert := true }

/-- Embedding of `syncFavorites` from the favorites context, signed-in user; same
shape as `syncGroceryList` with the id-keyed merge. -/
def syncFavorites (prior remote anon : List Recipe) (eff : SyncEff) :
    SyncOut Recipe :=
  if eff.readFails then
    { cache := prior, remoteWrite := none, anonCleared := false,
      errorAlert := true, successAlert := false }
  else if anon.length = 0 ∧ remote.length > 0 then
    { cache := remote, remoteWrite := none, anonCleared := false,
      errorAlert := false, successAlert := false }
  else
    let merged := mergeFavorites remote anon
    if eff.writeFails then
      { cache := merged, remoteWrite := none, anonCleared := false,
        errorAlert := true, successAlert := false }
    else if anon.length = 0 then
      { cache := merged, remoteWrite := some merged, anonCleared := false,
        errorAlert := false, successAlert := false }
    else if eff.clearFails then
      { cache := merged, remoteWrite := some merged, anonCleared := false,
        errorAlert := true, successAlert := false }
    else
      { cache := merged, remoteWrite := some merged, anonCleared := true,
        errorAlert := false, successAlert := true }

/-- Observable result of one realtime snapshot notification for the
grocery listener: the resulting in-memory list (given `prior`), the final
remote `groceryList` field content if any write happened, the resulting
anonymous store content, and the `isInitialized` flag afterwards. -/
structure GrocerySnapOut where
  cache : List GroceryItem
  remoteWrite : Option (List GroceryItem)
  anonStore : List GroceryItem
  initializedAfter : Bool
deriving DecidableEq

/-- The snapshot callback installed by `setupGroceryListener`.
`flag` is `isUpdatingFromFirestore`, `authOk` models
`auth.currentUser && auth.currentUser.uid === uid`, `isInit` is
`isInitialized`, `snap` is the `groceryList` field of the snapshot
(`none` when the document or the field is missing), `anon` the anonymous
store contents and `prior` the in-memory list before the notification.
`writeFails`/`clearFails`/`fallbackFails` are the outcomes of the
migration `setDoc`, the `AsyncStorage.removeItem` and the catch-branch
`setDoc` of an empty list. -/
def grocerySnapshotHandler (flag authOk isInit : Bool)
    (snap : Option (List GroceryItem)) (anon prior : List GroceryItem)
    (writeFails clearFails fallbackFails : Bool) : GrocerySnapOut :=
  if flag then
    { cache := prior, remoteWrite := none, anonStore := anon,
      initializedAfter := isInit }
  else if !authOk then
    { cache := prior, remoteWrite := none, anonStore := anon,
      initializedAfter := isInit }
  else
    match snap with
    | some items =>
      { cache := items, remoteWrite := none, anonStore := anon,
        initializedAfter := isInit }
    | none =>
      if isInit then
        { cache := prior, remoteWrite := none, anonStore := anon,
          initializedAfter := true }
      else if writeFails then
        if fallbackFails then
          { cache := prior, remoteWrite := none, anonStore := anon,
            initializedAfter := true }
        else
          { cache := [], remoteWrite := some [], anonStore := anon,
            initializedAfter := true }
      else if anon.length = 0 then
        { cache := anon, remoteWrite := some anon, anonStore := anon,
          initializedAfter := true }
      else if clearFails then
        if fallbackFails then
          { cache := anon, remoteWrite := some anon, anonStore := anon,
            initializedAfter := true }
        else
          { cache := [], remoteWrite := some [], anonStore := anon,
            initializedAfter := true }
      else
        { cache := anon, remoteWrite := some anon, anonStore := [],
          initializedAfter := true }

/-- Observable result of one realtime snapshot notification for the
favorites listener. -/
structure FavSnapOut where
  cache : List Recipe
  remoteWrite : Option (List Recipe)
  anonStore : List Recipe
deriving DecidableEq

/-- The snapshot callback installed by `setupFavoritesListener`.  Unlike
the grocery listener it checks auth first, then the echo-suppression flag,
and its migration branch has no `isInitialized` guard; on an error its
catch branch always ends with `setFavorites([])`. -/
def favoritesSnapshotHandler (authOk flag : Bool)
    (snap : Option (List Recipe)) (anon prior : List Recipe)
    (writeFails clearFails fallbackFails : Bool) : FavSnapOut :=
  if !authOk then
    { cache := prior, remoteWrite := none, anonStore := anon }
  else if flag then
    { cache := prior, remoteWrite := none, anonStore := anon }
  else
    match snap with
    | some items =>
      { cache := items, remoteWrite := none, anonStore := anon }
    | none =>
      if writeFails then
        if fallbackFails then
          { cache := [], remoteWrite := none, anonStore := anon }
        else
          { cache := [], remoteWrite := some [], anonStore := anon }
      else if anon.length = 0 then
        { cache := anon, remoteWrite := some anon, anonStore := anon }
      else if clearFails then
        if fallbackFails then
          { cache := [], remoteWrite := some anon, anonStore := anon }
        else
          { cache := [], remoteWrite := some [], anonStore := anon }
      else
        { cache := anon, remoteWrite := some anon, anonStore := [] }

/-- Unfolding of the merge loop over a cons cell. -/
theorem mergeBy_cons {α κ : Type} [DecidableEq κ] (key : α → κ)
    (R : List α) (a : α) (as : List α) :
    mergeBy key R (a :: as) =
      mergeBy key
        (if R.any (fun b => decide (key b = key a)) then R else R ++ [a]) as := by
  unfold mergeBy
  simp [List.foldl_cons]

/-- The merge loop only appends: the accumulator stays inside the result. -/
theorem mem_mergeBy_of_mem {α κ : Type} [DecidableEq κ] (key : α → κ)
    (anon : List α) : ∀ (R : List α) (b : α), b ∈ R → b ∈ mergeBy key R anon := by
  induction anon with
  | nil => intro R b hb; exact hb
  | cons a as ih =>
    intro R b hb
    rw [mergeBy_cons]
    apply ih
    split
    · exact hb
    · exact List.mem_append_left _ hb

/-- Every anonymous key ends up represented in the merge result. -/
theorem mergeBy_key_covered {α κ : Type} [DecidableEq κ] (key : α → κ)
    (anon : List α) : ∀ (R : List α), ∀ a ∈ anon,
      ∃ b ∈ mergeBy key R anon, key b = key a := by
  induction anon with
  | nil => intro R a ha; cases ha
  | cons x as ih =>
    intro R a ha
    rw [mergeBy_cons]
    rcases List.mem_cons.mp ha with rfl | has
    · by_cases hx : R.any (fun b => decide (key b = key a)) = true
      · obtain ⟨b, hbR, hbk⟩ := List.any_eq_true.mp hx
        rw [if_pos hx]
        exact ⟨b, mem_mergeBy_of_mem key as R b hbR, of_decide_eq_true hbk⟩
      · rw [if_neg hx]
        exact ⟨a, mem_mergeBy_of_mem key as _ a (List.mem_append_right _ (by simp)), rfl⟩
    · exact ih _ a has

/-- If every anonymous key is already present in the accumulator, the merge
loop is the identity. -/
theorem mergeBy_eq_of_covered {α κ : Type} [DecidableEq κ] (key : α → κ)
    (anon : List α) : ∀ (R : List α),
      (∀ a ∈ anon, R.any (fun b => decide (key b = key a)) = true) →
      mergeBy key R anon = R := by
  induction anon with
  | nil => intro R _; rfl
  | cons x as ih =>
    intro R h
    rw [mergeBy_cons, if_pos (h x (List.mem_cons_self x as))]
    exact ih R (fun a ha => h a (List.mem_cons_of_mem x ha))

/-- When the anonymous list has pairwise-distinct keys, the merge loop
computes exactly the spec's merge: remote entries first, then the
anonymous entries whose key is absent from the remote list, in order. -/
theorem mergeBy_eq_mergeSpecBy {α κ : Type} [DecidableEq κ] (key : α → κ)
    (anon : List α) : ∀ (R : List α), (anon.map key).Nodup →
      mergeBy key R anon = mergeSpecBy key R anon := by
  induction anon with
  | nil => intro R _; simp [mergeBy, mergeSpecBy]
  | cons a as ih =>
    intro R hnd
    rw [List.map_cons, List.nodup_cons] at hnd
    obtain ⟨hka, hnd'⟩ := hnd
    rw [mergeBy_cons]
    by_cases hR : R.any (fun b => decide (key b = key a)) = true
    · rw [if_pos hR, ih R hnd']
      unfold mergeSpecBy
      congr 1
      rw [List.filter_cons]
      simp [hR]
    · rw [if_neg hR, ih _ hnd']
      unfold mergeSpecBy
      rw [List.filter_cons]
      have hfa : (!(R.any fun b => decide (key b = key a))) = true := by
        simp [hR]
      rw [if_pos hfa]
      have hfilter :
          as.filter (fun x => !((R ++ [a]).any fun b => decide (key b = key x)))
            = as.filter (fun x => !(R.any fun b => decide (key b = key x))) := by
        apply List.filter_congr
        intro x hx
        have hne : ¬ (key a = key x) := by
          intro he
          exact hka (he ▸ List.mem_map_of_mem key hx)
        simp [List.any_append, hne]
      rw [hfilter, List.append_assoc]
      rfl

/-- Running the merge loop a second time with the same anonymous list is
the identity. -/
theorem mergeBy_idem {α κ : Type} [DecidableEq κ] (key : α → κ)
    (R A : List α) : mergeBy key (mergeBy key R A) A = mergeBy key R A := by
  apply mergeBy_eq_of_covered
  intro a ha
  obtain ⟨b, hb, hk⟩ := mergeBy_key_covered key A R a ha
  exact List.any_eq_true.mpr ⟨b, hb, decide_eq_true hk⟩

/-- C2: the manual-sync merge is idempotent: for all lists `Remote` and
`Anon`, merging the first run's result with the same anonymous list again
equals the first run's result, for the grocery merge (key:
case-insensitive trimmed name) and the favorites merge (key: id). -/
theorem c2_merge_idempotent :
    (∀ (R A : List GroceryItem),
        mergeGrocery (mergeGrocery R A) A = mergeGrocery R A) ∧
    (∀ (R A : List Recipe),
        mergeFavorites (mergeFavorites R A) A = mergeFavorites R A) :=
  ⟨fun R A => mergeBy_idem groceryKey R A, fun R A => mergeBy_idem Recipe.id R A⟩

/-- C3 counterexample: with an anonymous list holding two entries of the
same key, neither matching a remote entry, the code keeps only the first
of them, while the claim demands both be appended in order. -/
theorem c3_counterexample :
    mergeFavorites []
        [{ id := 3, name := ['A'], details := [], image := [] },
         { id := 3, name := ['B'], details := [], image := [] }]
      ≠ mergeSpecBy Recipe.id []
        [{ id := 3, name := ['A'], details := [], image := [] },
         { id := 3, name := ['B'], details := [], image := [] }] := by
  decide

/-- C3 (amended): whenever the anonymous entries have pairwise-distinct
keys (which every store produced by the UI operations satisfies), the
manual-sync merge equals: remote entries exactly as stored, followed by
the anonymous entries whose key matches no remote entry, in their
original order; stated for the favorites merge (key: id) and the grocery
merge (key: case-insensitive trimmed name). -/
theorem c3_merge_remote_precedence :
    (∀ (R A : List Recipe), (A.map Recipe.id).Nodup →
        mergeFavorites R A = mergeSpecBy Recipe.id R A) ∧
    (∀ (R A : List GroceryItem), (A.map groceryKey).Nodup →
        mergeGrocery R A = mergeSpecBy groceryKey R A) :=
  ⟨fun R A h => mergeBy_eq_mergeSpecBy Recipe.id A R h,
   fun R A h => mergeBy_eq_mergeSpecBy groceryKey A R h⟩

/-- C3 witness: the spec's own scenario, remote favorites `[{id:2,Pie}]`
and anonymous favorites `[{id:2,OldPie},{id:3,Cake}]`, merged by the code
to `[{id:2,Pie},{id:3,Cake}]`. -/
theorem c3_witness :
    ([{ id := 2, name := ['O','l','d','P','i','e'], details := [], image := [] },
      { id := 3, name := ['C','a','k','e'], details := [], image := [] }].map
        Recipe.id).Nodup ∧
    mergeFavorites
        [{ id := 2, name := ['P','i','e'], details := [], image := [] }]
        [{ id := 2, name := ['O','l','d','P','i','e'], details := [], image := [] },
         { id := 3, name := ['C','a','k','e'], details := [], image := [] }]
      = mergeSpecBy Recipe.id
        [{ id := 2, name := ['P','i','e'], details := [], image := [] }]
        [{ id := 2, name := ['O','l','d','P','i','e'], details := [], image := [] },
         { id := 3, name := ['C','a','k','e'], details := [], image := [] }] :=
  ⟨by decide,
   c3_merge_remote_precedence.1
     [{ id := 2, name := ['P','i','e'], details := [], image := [] }]
     [{ id := 2, name := ['O','l','d','P','i','e'], details := [], image := [] },
      { id := 3, name := ['C','a','k','e'], details := [], image := [] }]
     (by decide)⟩

/-- At most one entry per case-insensitive trimmed name. -/
def NamesNodup (l : List GroceryItem) : Prop := (l.map groceryKey).Nodup

/-- At most one favorite entry per id. -/
def IdsNodup (l : List Recipe) : Prop := (l.map Recipe.id).Nodup

/-- Mapping an update that keeps every item's name keeps the key list. -/
theorem keys_map_of_name_eq (l : List GroceryItem) (f : GroceryItem → GroceryItem)
    (hf : ∀ i, (f i).name = i.name) :
    (l.map f).map groceryKey = l.map groceryKey := by
  rw [List.map_map]
  apply List.map_congr_left
  intro a _
  simp [groceryKey, Function.comp, hf]

/-- Filtering preserves the grocery name invariant. -/
theorem namesNodup_filter (p : GroceryItem → Bool) (l : List GroceryItem)
    (h : NamesNodup l) : NamesNodup (l.filter p) :=
  List.Nodup.sublist (List.Sublist.map groceryKey (List.filter_sublist l)) h

/-- Every single grocery mutation preserves the name invariant. -/
theorem namesNodup_applyGroceryOp (l : List GroceryItem) (op : GroceryOp)
    (h : NamesNodup l) : NamesNodup (applyGroceryOp l op) := by
  cases op with
  | add freshId now ingredient =>
    show NamesNodup (addGroceryItem freshId now ingredient l)
    unfold addGroceryItem
    by_cases he : jsTrim ingredient = []
    · rwa [if_pos he]
    · rw [if_neg he]
      cases hf : l.find? (fun i => decide (normName i.name = normName ingredient)) with
      | some existingItem =>
        by_cases hc : existingItem.checked
        · simp only [hc, if_true]
          unfold NamesNodup
          rw [keys_map_of_name_eq]
          · exact h
          · intro i
            by_cases hi : i.id = existingItem.id <;> simp [hi]
        · simpa only [hc, if_false] using h
      | none =>
        unfold NamesNodup
        rw [List.map_append]
        rw [List.nodup_append]
        refine ⟨h, List.nodup_singleton _, ?_⟩
        intro a ha hb
        simp only [List.map_cons, List.map_nil, List.mem_singleton] at hb
        subst hb
        simp only [groceryKey] at ha
        rw [normName_jsTrim] at ha
        obtain ⟨i, hi, hik⟩ := List.mem_map.mp ha
        have := List.find?_eq_none.mp hf i hi
        simp only [decide_eq_true_eq] at this
        exact this hik
  | remove id => exact namesNodup_filter _ l h
  | removeByName name => exact namesNodup_filter _ l h
  | toggle id =>
    show NamesNodup (toggleGroceryItem id l)
    unfold NamesNodup toggleGroceryItem
    rw [keys_map_of_name_eq]
    · exact h
    · intro i
      by_cases hi : i.id = id <;> simp [hi]
  | clearChecked => exact namesNodup_filter _ l h
  | clearAll => exact List.nodup_nil

/-- Any sequence of grocery mutations preserves the name invariant. -/
theorem namesNodup_applyGroceryOps (ops : List GroceryOp) :
    ∀ (l : List GroceryItem), NamesNodup l → NamesNodup (applyGroceryOps l ops) := by
  induction ops with
  | nil => intro l h; exact h
  | cons op ops ih =>
    intro l h
    exact ih (applyGroceryOp l op) (namesNodup_applyGroceryOp l op h)

/-- C6: starting from any list with at most one entry per
case-insensitive trimmed name (in particular the empty list), after any
finite sequence of `addGroceryItem`, `removeGroceryItem`,
`removeGroceryItemByName`, `toggleGroceryItem`, `clearCheckedItems` and
`clearAllItems` operations the list never contains two unchecked items
whose names are equal case-insensitively after trimming. -/
theorem c6_grocery_dedup_invariant (init : List GroceryItem)
    (ops : List GroceryOp) (h : NamesNodup init) :
    (applyGroceryOps init ops).Pairwise
      (fun a b => a.checked = false → b.checked = false →
        groceryKey a ≠ groceryKey b) := by
  have hres : NamesNodup (applyGroceryOps init ops) :=
    namesNodup_applyGroceryOps ops init h
  unfold NamesNodup at hres
  rw [List.Nodup, List.pairwise_map] at hres
  exact List.Pairwise.imp (fun hne _ _ => hne) hres

/-- C6 witness: adding `Milk` and then `milk ` to the empty list leaves a
list with no two unchecked entries of the same trimmed lowercased name. -/
theorem c6_witness :
    NamesNodup [] ∧
    (applyGroceryOps []
        [GroceryOp.add ['1'] 0 ['M','i','l','k'],
         GroceryOp.add ['2'] 1 ['m','i','l','k',' '],
         GroceryOp.toggle ['1']]).Pairwise
      (fun a b => a.checked = false → b.checked = false →
        groceryKey a ≠ groceryKey b) :=
  ⟨List.nodup_nil,
   c6_grocery_dedup_invariant []
     [GroceryOp.add ['1'] 0 ['M','i','l','k'],
      GroceryOp.add ['2'] 1 ['m','i','l','k',' '],
      GroceryOp.toggle ['1']] List.nodup_nil⟩

/-- Filtering preserves the favorites id invariant. -/
theorem idsNodup_filter (p : Recipe → Bool) (l : List Recipe)
    (h : IdsNodup l) : IdsNodup (l.filter p) :=
  List.Nodup.sublist (List.Sublist.map Recipe.id (List.filter_sublist l)) h

/-- Appending a recipe whose id is absent preserves the id invariant. -/
theorem idsNodup_append (l : List Recipe) (r : Recipe)
    (hany : l.any (fun fav => decide (fav.id = r.id)) = false)
    (h : IdsNodup l) : IdsNodup (l ++ [r]) := by
  unfold IdsNodup
  rw [List.map_append, List.nodup_append]
  refine ⟨h, List.nodup_singleton _, ?_⟩
  intro a ha hb
  simp only [List.map_cons, List.map_nil, List.mem_singleton] at hb
  subst hb
  obtain ⟨i, hi, hik⟩ := List.mem_map.mp ha
  have := List.any_eq_false.mp hany i hi
  simp only [decide_eq_true_eq] at this
  exact this hik

/-- Every single favorites mutation preserves the id invariant. -/
theorem idsNodup_applyFavOp (l : List Recipe) (op : FavOp)
    (h : IdsNodup l) : IdsNodup (applyFavOp l op) := by
  cases op with
  | add recipe =>
    show IdsNodup (addFavorite recipe l)
    unfold addFavorite
    cases hany : l.any (fun fav => decide (fav.id = recipe.id)) with
    | true => rwa [if_pos rfl]
    | false =>
      rw [if_neg (by decide)]
      exact idsNodup_append l recipe hany h
  | remove id => exact idsNodup_filter _ l h
  | toggle recipe =>
    show IdsNodup (toggleFavorite recipe l)
    unfold toggleFavorite
    cases hany : l.any (fun fav => decide (fav.id = recipe.id)) with
    | true => rw [if_pos rfl]; exact idsNodup_filter _ l h
    | false =>
      rw [if_neg (by decide)]
      exact idsNodup_append l recipe hany h

/-- Any sequence of favorites mutations preserves the id invariant. -/
theorem idsNodup_applyFavOps (ops : List FavOp) :
    ∀ (l : List Recipe), IdsNodup l → IdsNodup (applyFavOps l ops) := by
  induction ops with
  | nil => intro l h; exact h
  | cons op ops ih =>
    intro l h
    exact ih (applyFavOp l op) (idsNodup_applyFavOp l op h)

/-- C7: starting from any favorites list with pairwise-distinct ids (in
particular the empty list), after any finite sequence of `addFavorite`,
`removeFavorite` and `toggleFavorite` operations the list never contains
two items with the same id; moreover `addFavorite` of a recipe whose id
is already present leaves the list unchanged. -/
theorem c7_favorites_dedup_invariant :
    (∀ (init : List Recipe) (ops : List FavOp), IdsNodup init →
        IdsNodup (applyFavOps init ops)) ∧
    (∀ (l : List Recipe) (r : Recipe),
        l.any (fun fav => decide (fav.id = r.id)) = true → addFavorite r l = l) := by
  constructor
  · intro init ops h
    exact idsNodup_applyFavOps ops init h
  · intro l r hany
    unfold addFavorite
    rw [if_pos hany]

/-- C7 witness: adding, toggling and re-adding a duplicate id keeps ids
distinct, and re-adding an already-present id is a no-op. -/
theorem c7_witness :
    IdsNodup (applyFavOps []
      [FavOp.add { id := 1, name := ['S'], details := [], image := [] },
       FavOp.add { id := 1, name := ['T'], details := [], image := [] },
       FavOp.toggle { id := 2, name := ['U'], details := [], image := [] }]) ∧
    addFavorite { id := 1, name := ['T'], details := [], image := [] }
        [{ id := 1, name := ['S'], details := [], image := [] }]
      = [{ id := 1, name := ['S'], details := [], image := [] }] :=
  ⟨c7_favorites_dedup_invariant.1 []
     [FavOp.add { id := 1, name := ['S'], details := [], image := [] },
      FavOp.add { id := 1, name := ['T'], details := [], image := [] },
      FavOp.toggle { id := 2, name := ['U'], details := [], image := [] }]
     List.nodup_nil,
   c7_favorites_dedup_invariant.2
     [{ id := 1, name := ['S'], details := [], image := [] }]
     { id := 1, name := ['T'], details := [], image := [] } (by decide)⟩

/-- C5 counterexample: a list holding an unchecked and a checked item of
the same normalized name.  The list contains a checked item matching the
added name, but `addGroceryItem` finds the unchecked entry first and
returns the list unchanged: the checked item is not flipped. -/
theorem c5_counterexample :
    (∃ i ∈ ([{ id := ['a'], name := ['m','i','l','k'], checked := false,
               addedAt := 0 },
             { id := ['b'], name := ['m','i','l','k'], checked := true,
               addedAt := 0 }] : List GroceryItem),
        i.checked = true ∧
          normName i.name = normName ['m','i','l','k']) ∧
    addGroceryItem ['c'] 5 ['m','i','l','k']
        [{ id := ['a'], name := ['m','i','l','k'], checked := false, addedAt := 0 },
         { id := ['b'], name := ['m','i','l','k'], checked := true, addedAt := 0 }]
      = [{ id := ['a'], name := ['m','i','l','k'], checked := false, addedAt := 0 },
         { id := ['b'], name := ['m','i','l','k'], checked := true, addedAt := 0 }] := by
  decide

/-- C5 (amended): for every grocery list with pairwise-distinct ids and
every name nonempty after trimming, if the first item whose trimmed
lowercased name matches is checked, then `addGroceryItem` flips exactly
that item's checked flag to false, changes no other field of any item,
creates no new entry, and leaves the list length unchanged. -/
theorem c5_reactivation (l : List GroceryItem) (freshId ingredient : JStr)
    (now : Int) (ex : GroceryItem)
    (hne : jsTrim ingredient ≠ [])
    (hfind : l.find? (fun i => decide (normName i.name = normName ingredient))
      = some ex)
    (hchecked : ex.checked = true)
    (hids : (l.map GroceryItem.id).Nodup) :
    ∃ s t, l = s ++ ex :: t ∧
      addGroceryItem freshId now ingredient l
        = s ++ { ex with checked := false } :: t := by
  have hmem : ex ∈ l := List.mem_of_find?_eq_some hfind
  obtain ⟨s, t, hst⟩ := List.append_of_mem hmem
  subst hst
  refine ⟨s, t, rfl, ?_⟩
  unfold addGroceryItem
  rw [if_neg hne, hfind]
  simp only [hchecked, if_true]
  rw [List.map_append, List.map_cons]
  rw [List.map_append, List.map_cons, List.nodup_append] at hids
  obtain ⟨h1, h2, hdisj⟩ := hids
  rw [List.nodup_cons] at h2
  have hs : List.map (fun i =>
      if i.id = ex.id then { i with checked := false } else i) s = s := by
    conv_rhs => rw [← List.map_id s]
    apply List.map_congr_left
    intro i hi
    have hine : ¬ (i.id = ex.id) := by
      intro he
      exact hdisj (List.mem_map_of_mem GroceryItem.id hi)
        (he ▸ List.mem_cons_self _ _)
    simp [hine]
  have ht : List.map (fun i =>
      if i.id = ex.id then { i with checked := false } else i) t = t := by
    conv_rhs => rw [← List.map_id t]
    apply List.map_congr_left
    intro i hi
    have hine : ¬ (i.id = ex.id) := by
      intro he
      exact h2.1 (he ▸ List.mem_map_of_mem GroceryItem.id hi)
    simp [hine]
  rw [hs, ht, if_pos rfl]

/-- C5 witness: a single checked `Milk` entry is reactivated by adding
`milk`. -/
theorem c5_witness :
    ∃ s t, [{ id := ['b'], name := ['M','i','l','k'], checked := true,
              addedAt := 0 }] = s ++
        ({ id := ['b'], name := ['M','i','l','k'], checked := true,
           addedAt := 0 } : GroceryItem) :: t ∧
      addGroceryItem ['c'] 9 ['m','i','l','k']
          [{ id := ['b'], name := ['M','i','l','k'], checked := true,
             addedAt := 0 }]
        = s ++ ({ id := ['b'], name := ['M','i','l','k'], checked := false,
                  addedAt := 0 } : GroceryItem) :: t :=
  c5_reactivation
    [{ id := ['b'], name := ['M','i','l','k'], checked := true, addedAt := 0 }]
    ['c'] ['m','i','l','k'] 9
    { id := ['b'], name := ['M','i','l','k'], checked := true, addedAt := 0 }
    (by decide) (by decide) rfl (by decide)

/-- C1 counterexample: the sync functions set the in-memory list to the
merged list before awaiting the remote write, so a failing write leaves
the cache changed.  Here the prior list is empty, the remote list empty,
the anonymous store holds one item, and the write throws: the error
notice is shown but the cache is no longer the prior list. -/
theorem c1_counterexample :
    (syncGroceryList [] []
        [{ id := ['a'], name := ['m'], checked := false, addedAt := 0 }]
        { readFails := false, writeFails := true, clearFails := false }).errorAlert
      = true ∧
    (syncGroceryList [] []
        [{ id := ['a'], name := ['m'], checked := false, addedAt := 0 }]
        { readFails := false, writeFails := true, clearFails := false }).cache
      ≠ [] := by
  decide

/-- C1 (amended): a failing manual sync always surfaces the dismissible
error notice, and never leaves a partially merged list: if the remote
read fails the cache is exactly the prior list (and nothing was written
or cleared), while if the read succeeded and an error is surfaced (write
or anonymous-store clear failed) the cache is exactly the complete merge
of the remote and anonymous lists and the anonymous store is not
cleared.  Stated for both `syncGroceryList` and `syncFavorites`. -/
theorem c1_sync_error_behavior :
    (∀ (prior remote anon : List GroceryItem) (eff : SyncEff),
        eff.readFails = true →
          (syncGroceryList prior remote anon eff).cache = prior ∧
          (syncGroceryList prior remote anon eff).errorAlert = true ∧
          (syncGroceryList prior remote anon eff).remoteWrite = none ∧
          (syncGroceryList prior remote anon eff).anonCleared = false) ∧
    (∀ (prior remote anon : List GroceryItem) (eff : SyncEff),
        eff.readFails = false →
          (syncGroceryList prior remote anon eff).errorAlert = true →
          (syncGroceryList prior remote anon eff).cache = mergeGrocery remote anon ∧
          (syncGroceryList prior remote anon eff).anonCleared = false) ∧
    (∀ (prior remote anon : List Recipe) (eff : SyncEff),
        eff.readFails = true →
          (syncFavorites prior remote anon eff).cache = prior ∧
          (syncFavorites prior remote anon eff).errorAlert = true ∧
          (syncFavorites prior remote anon eff).remoteWrite = none ∧
          (syncFavorites prior remote anon eff).anonCleared = false) ∧
    (∀ (prior remote anon : List Recipe) (eff : SyncEff),
        eff.readFails = false →
          (syncFavorites prior remote anon eff).errorAlert = true →
          (syncFavorites prior remote anon eff).cache = mergeFavorites remote anon ∧
          (syncFavorites prior remote anon eff).anonCleared = false) := by
  refine ⟨?_, ?_, ?_, ?_⟩
  · intro prior remote anon eff hr
    simp [syncGroceryList, hr]
  · intro prior remote anon eff hr halert
    by_cases he : anon = [] ∧ 0 < remote.length
    · simp [syncGroceryList, hr, he] at halert
    · by_cases hw : eff.writeFails
      · simp [syncGroceryList, hr, he, hw]
      · by_cases ha : anon = []
        · simp only [ha, true_and, not_lt] at he
          simp [syncGroceryList, hr, hw, ha, Nat.le_zero.mp he] at halert
        · by_cases hc : eff.clearFails
          · simp [syncGroceryList, hr, he, hw, ha, hc]
          · simp [syncGroceryList, hr, he, hw, ha, hc] at halert
  · intro prior remote anon eff hr
    simp [syncFavorites, hr]
  · intro prior remote anon eff hr halert
    by_cases he : anon = [] ∧ 0 < remote.length
    · simp [syncFavorites, hr, he] at halert
    · by_cases hw : eff.writeFails
      · simp [syncFavorites, hr, he, hw]
      · by_cases ha : anon = []
        · simp only [ha, true_and, not_lt] at he
          simp [syncFavorites, hr, hw, ha, Nat.le_zero.mp he] at halert
        · by_cases hc : eff.clearFails
          · simp [syncFavorites, hr, he, hw, ha, hc]
          · simp [syncFavorites, hr, he, hw, ha, hc] at halert

/-- C1 witness: a failing remote read leaves a one-item cache untouched,
shows the notice, writes nothing and clears nothing. -/
theorem c1_witness :
    (syncGroceryList
        [{ id := ['x'], name := ['p'], checked := false, addedAt := 0 }] [] []
        { readFails := true, writeFails := false, clearFails := false }).cache
      = [{ id := ['x'], name := ['p'], checked := false, addedAt := 0 }] ∧
    (syncGroceryList
        [{ id := ['x'], name := ['p'], checked := false, addedAt := 0 }] [] []
        { readFails := true, writeFails := false, clearFails := false }).errorAlert
      = true ∧
    (syncGroceryList
        [{ id := ['x'], name := ['p'], checked := false, addedAt := 0 }] [] []
        { readFails := true, writeFails := false, clearFails := false }).remoteWrite
      = none ∧
    (syncGroceryList
        [{ id := ['x'], name := ['p'], checked := false, addedAt := 0 }] [] []
        { readFails := true, writeFails := false, clearFails := false }).anonCleared
      = false :=
  c1_sync_error_behavior.1
    [{ id := ['x'], name := ['p'], checked := false, addedAt := 0 }] [] []
    { readFails := true, writeFails := false, clearFails := false } rfl

/-- C4: on a snapshot for a signed-in user whose document lacks the
collection's field, with echo suppression off and no I/O failure, both
listeners write the anonymous store's items to the remote document, set
the in-memory list to exactly those items, and leave the anonymous store
cleared (the grocery listener additionally requires and then sets its
`isInitialized` flag). -/
theorem c4_migration :
    (∀ (anon prior : List Recipe) (fallbackFails : Bool),
        favoritesSnapshotHandler true false none anon prior false false fallbackFails
          = { cache := anon, remoteWrite := some anon, anonStore := [] }) ∧
    (∀ (anon prior : List GroceryItem) (fallbackFails : Bool),
        grocerySnapshotHandler false true false none anon prior false false
            fallbackFails
          = { cache := anon, remoteWrite := some anon, anonStore := [],
              initializedAfter := true }) := by
  constructor
  · intro anon prior fallbackFails
    by_cases hl : anon.length = 0
    · have h0 : anon = [] := List.length_eq_zero.mp hl
      subst h0
      simp [favoritesSnapshotHandler]
    · simp [favoritesSnapshotHandler, hl]
  · intro anon prior fallbackFails
    by_cases hl : anon.length = 0
    · have h0 : anon = [] := List.length_eq_zero.mp hl
      subst h0
      simp [grocerySnapshotHandler]
    · simp [grocerySnapshotHandler, hl]

/-- C9: whenever the echo-suppression flag `isUpdatingFromFirestore` is
set, a realtime snapshot notification changes nothing: both handlers
return before applying the snapshot's items, leaving the in-memory list,
the remote document and the anonymous store exactly as they were. -/
theorem c9_echo_suppression :
    (∀ (authOk isInit : Bool) (snap : Option (List GroceryItem))
        (anon prior : List GroceryItem) (w c f : Bool),
        grocerySnapshotHandler true authOk isInit snap anon prior w c f
          = { cache := prior, remoteWrite := none, anonStore := anon,
              initializedAfter := isInit }) ∧
    (∀ (authOk : Bool) (snap : Option (List Recipe))
        (anon prior : List Recipe) (w c f : Bool),
        favoritesSnapshotHandler authOk true snap anon prior w c f
          = { cache := prior, remoteWrite := none, anonStore := anon }) := by
  constructor
  · intro authOk isInit snap anon prior w c f
    simp [grocerySnapshotHandler]
  · intro authOk snap anon prior w c f
    cases authOk <;> simp [favoritesSnapshotHandler]

/-- C8 counterexample: `safeToDate` returns the result of a `toDate()`
call unvalidated, so an object whose `toDate()` returns an Invalid Date
makes `safeToDate` return an invalid Date. -/
theorem c8_counterexample :
    (safeToDate 0 (DateValue.withToDate (Except.ok none))).isSome = false := rfl

/-- C8 (amended): `safeToDate` is total and never throws; it returns a
valid Date for every input except an object whose `toDate()` method
itself returns an invalid Date, which is passed through unvalidated;
invalid Dates, unparseable strings and numbers, `null`, a throwing
`toDate()` and any other value all fall back to the current time. -/
theorem c8_safeToDate_total :
    (∀ (now : Int) (v : DateValue), v ≠ DateValue.withToDate (Except.ok none) →
        (safeToDate now v).isSome = true) ∧
    (∀ now : Int,
        safeToDate now (DateValue.jsDate none) = some now ∧
        safeToDate now (DateValue.str none) = some now ∧
        safeToDate now (DateValue.num none) = some now ∧
        safeToDate now DateValue.nullVal = some now ∧
        safeToDate now (DateValue.withToDate (Except.error ())) = some now ∧
        safeToDate now DateValue.other = some now) := by
  constructor
  · intro now v hv
    cases v with
    | jsDate t => cases t <;> rfl
    | str p => cases p <;> rfl
    | num p => cases p <;> rfl
    | nullVal => rfl
    | withToDate r =>
      cases r with
      | ok d =>
        cases d with
        | none => exact absurd rfl hv
        | some x => rfl
      | error e => rfl
    | other => rfl
  · intro now
    exact ⟨rfl, rfl, rfl, rfl, rfl, rfl⟩

/-- C8 witness: a valid Date input yields a valid Date. -/
theorem c8_witness :
    (safeToDate 5 (DateValue.jsDate (some 3))).isSome = true :=
  c8_safeToDate_total.1 5 (DateValue.jsDate (some 3))
    (fun h => DateValue.noConfusion h)

/-- C10: `removeGroceryItemByName n` keeps the remaining items in their
relative order (the result is a sublist), a grocery item is in the
result exactly when it was in the list and its trimmed lowercased name
differs from that of `n`, and every non-matching item keeps its exact
multiplicity. -/
theorem c10_removeByName (n : JStr) (items : List GroceryItem) :
    List.Sublist (removeGroceryItemByName n items) items ∧
    (∀ i, i ∈ removeGroceryItemByName n items ↔
      i ∈ items ∧ normName i.name ≠ normName n) ∧
    (∀ i : GroceryItem, normName i.name ≠ normName n →
      (removeGroceryItemByName n items).count i = items.count i) := by
  refine ⟨List.filter_sublist items, ?_, ?_⟩
  · intro i
    unfold removeGroceryItemByName
    rw [List.mem_filter]
    simp only [decide_eq_true_eq]
  · intro i hi
    unfold removeGroceryItemByName
    exact List.count_filter (by simpa using hi)

/-- C10 witness: removing ` MILK ` deletes both the checked and the
unchecked `milk` entries and keeps `bread` with its multiplicity. -/
theorem c10_witness :
    (({ id := ['c'], name := ['b','r','e','a','d'], checked := false,
        addedAt := 2 } : GroceryItem) ∈
      removeGroceryItemByName [' ','M','I','L','K',' ']
        [{ id := ['a'], name := ['m','i','l','k'], checked := false, addedAt := 0 },
         { id := ['b'], name := ['M','i','l','k'], checked := true, addedAt := 1 },
         { id := ['c'], name := ['b','r','e','a','d'], checked := false,
           addedAt := 2 }] ↔
      (({ id := ['c'], name := ['b','r','e','a','d'], checked := false,
          addedAt := 2 } : GroceryItem) ∈
        [{ id := ['a'], name := ['m','i','l','k'], checked := false, addedAt := 0 },
         { id := ['b'], name := ['M','i','l','k'], checked := true, addedAt := 1 },
         { id := ['c'], name := ['b','r','e','a','d'], checked := false,
           addedAt := 2 }] ∧
        normName ['b','r','e','a','d'] ≠ normName [' ','M','I','L','K',' '])) :=
  (c10_removeByName [' ','M','I','L','K',' ']
    [{ id := ['a'], name := ['m','i','l','k'], checked := false, addedAt := 0 },
     { id := ['b'], name := ['M','i','l','k'], checked := true, addedAt := 1 },
     { id := ['c'], name := ['b','r','e','a','d'], checked := false,
       addedAt := 2 }]).2.1
    { id := ['c'], name := ['b','r','e','a','d'], checked := false, addedAt := 2 }

end RecipeRabbit
